import Mathlib

/-!
Verification of the Avro phonetic transliteration engine (`avrolib.py`).

Strings are modelled as `List Char`; cursor arithmetic that can go negative
in Python (e.g. `chk = cur - 1`) is carried out in `Int`.  Python's
`str.lower` is modelled by ASCII lowercasing (`Char.toLower`), which agrees
with Python on every character occurring in the engine's classifier sets and
pattern tables.  Python raises `IndexError` on an out-of-range index and
wraps a negative index around; every call site in the engine either guards
the access (short-circuit `and`/`or`) so that only in-range non-negative
indices are evaluated, or is unreachable from `parse`; `pyGet`/`pySlice`
below therefore implement the wrap for negative indices and return a
sentinel for out-of-range ones, and no theorem below depends on the
sentinel.
-/

namespace Avro

/-- Element access `s[i]` in the Python style: a negative index counts from
the end of the list.  An index that is out of range even after the wrap
(where Python raises `IndexError`) yields the null character; no call site
reachable from `parse` evaluates the access at such an index. -/
def pyGet (s : List Char) (i : Int) : Char :=
  let j : Int := if i < 0 then i + s.length else i
  s.getD j.toNat '\u0000'

/-- Slice `s[a:b]` in the Python style for non-negative bounds (`a ≥ 0`,
`b ≥ 0`): out-of-range bounds clamp and `a > b` yields the empty slice.
Negative bounds (which Python would wrap) are never evaluated at the
engine's guarded call sites. -/
def pySlice (s : List Char) (a b : Int) : List Char :=
  (s.drop a.toNat).take (b - a).toNat

/-- Python `str.lower` restricted to ASCII; it agrees with Python on all
characters of the classifier sets and of the pattern tables. -/
def lowerChar (c : Char) : Char := c.toLower

/-- Constant `VOWELS` of `init_data`. -/
def VOWELS : List Char := "aeiou".data

/-- Constant `CONSONANTS` of `init_data`. -/
def CONSONANTS : List Char := "bcdfghjklmnpqrstvwxyz".data

/-- Constant `CASESENSITIVES` of `init_data`. -/
def CASESENSITIVES : List Char := "oiudgjnrstyz".data

/-- Constant `DIGITS` of `init_data`. -/
def DIGITS : List Char := "0123456789".data

/-- Source `_is_vowel`: `char.lower() in self.VOWELS`. -/
def isVowel (c : Char) : Bool := VOWELS.contains (lowerChar c)

/-- Source `_is_consonant`: `char.lower() in self.CONSONANTS`. -/
def isConsonant (c : Char) : Bool := CONSONANTS.contains (lowerChar c)

/-- Source `_is_number`: `char.lower() in self.DIGITS`. -/
def isNumber (c : Char) : Bool := DIGITS.contains (lowerChar c)

/-- Source `_is_punctuation`: not a vowel and not a consonant (after
lowercasing). -/
def isPunctuation (c : Char) : Bool :=
  !(VOWELS.contains (lowerChar c) || CONSONANTS.contains (lowerChar c))

/-- Source `_is_case_sensitive`: `char.lower() in self.CASESENSITIVES`. -/
def isCaseSensitive (c : Char) : Bool := CASESENSITIVES.contains (lowerChar c)

/-- Source `_fix_string_case`: a case-sensitive character is kept, any other
character is lowercased. -/
def fixStringCase (text : List Char) : List Char :=
  text.map (fun c => if isCaseSensitive c then c else lowerChar c)

/-- Source `_is_exact(needle, haystack, start, end, matchnot)`:
`(start >= 0 and end < len(haystack) and haystack[start:end] == needle) ^ matchnot`.
The slice is evaluated only when `start ≥ 0`, so no Python index wrap
occurs. -/
def isExact (needle : List Char) (haystack : List Char) (start stop : Int)
    (matchnot : Bool) : Bool :=
  (decide (0 ≤ start) && decide (stop < (haystack.length : Int)) &&
    (pySlice haystack start stop == needle)) ^^ matchnot

/-- One entry of a rule's `matches` list.  The `value` key is present in the
source data exactly for the `exact` scope; for the other scopes the field is
never read and is recorded here as `""`. -/
structure MatchPred where
  type : String
  scope : String
  value : String
deriving DecidableEq, Repr

/-- One entry of a pattern's `rules` list. -/
structure CondRule where
  «matches» : List MatchPred
  replace : String
deriving DecidableEq, Repr

/-- One entry of the `PATTERNS` table; `rules := none` models the absence of
the `rules` key. -/
structure Pattern where
  find : String
  replace : String
  rules : Option (List CondRule)
deriving DecidableEq, Repr

/-- Source `_process_match(match, fixed_text, cur, cur_end)`.  `replace`
starts `True` and is set to `False` exactly when the scope's condition,
XORed with the negation flag, fires; a scope that matches none of the four
branches leaves `replace` untouched.  Python's `scope.startswith('!')` is
the test that the first character is `'!'`, written here on the character
list (`String.startsWith` does not reduce in the kernel). -/
def processMatch (m : MatchPred) (fixedText : List Char) (cur curEnd : Nat) :
    Bool :=
  let chk : Int := if m.type == "prefix" then (cur : Int) - 1 else (curEnd : Int)
  let negative : Bool := m.scope.data.head? == some '!'
  let scope : String := if m.scope.data.head? == some '!' then m.scope.drop 1 else m.scope
  if scope == "punctuation" then
    if (!(decide (chk < 0) && (m.type == "prefix") ||
          decide ((fixedText.length : Int) ≤ chk) && (m.type == "suffix") ||
          isPunctuation (pyGet fixedText chk))) ^^ negative then
      false
    else
      true
  else if scope == "vowel" then
    if (!((decide (0 ≤ chk) && (m.type == "prefix") ||
           decide (chk < (fixedText.length : Int)) && (m.type == "suffix")) &&
          isVowel (pyGet fixedText chk))) ^^ negative then
      false
    else
      true
  else if scope == "consonant" then
    if (!((decide (0 ≤ chk) && (m.type == "prefix") ||
           decide (chk < (fixedText.length : Int)) && (m.type == "suffix")) &&
          isConsonant (pyGet fixedText chk))) ^^ negative then
      false
    else
      true
  else if scope == "exact" then
    let exactStart : Int :=
      if m.type == "prefix" then (cur : Int) - m.value.length else (curEnd : Int)
    let exactEnd : Int :=
      if m.type == "prefix" then (cur : Int) else (curEnd : Int) + m.value.length
    if !(isExact m.value.data fixedText exactStart exactEnd negative) then
      false
    else
      true
  else
    true

/-- Inner loop of `_process_rules` over one rule's `matches` list: `matched`
is assigned the result of each predicate in turn, and the loop breaks as
soon as a predicate fails.  The second argument is the value `matched` holds
on entry (`False` at the top of each outer iteration); it is returned
unchanged when the list is empty. -/
def matchesLoop (fixedText : List Char) (cur curEnd : Nat) :
    List MatchPred → Bool → Bool
  | [], matched => matched
  | m :: rest, _ =>
    let matched := processMatch m fixedText cur curEnd
    if matched then matchesLoop fixedText cur curEnd rest matched else matched

/-- Outer loop of `_process_rules`: rules are tried in order and the loop
breaks at the first rule whose `matches` all hold, remembering its
`replace`; after the loop, `replaced` is returned if `matched` is true and
the sentinel `None` (here `none`) otherwise. -/
def rulesLoop (fixedText : List Char) (cur curEnd : Nat) :
    List CondRule → Bool → String → Option String
  | [], matched, replaced => if matched then some replaced else none
  | r :: rest, _, replaced =>
    let matched := matchesLoop fixedText cur curEnd r.«matches» false
    if matched then some r.replace
    else rulesLoop fixedText cur curEnd rest matched replaced

/-- Source `_process_rules(rules, fixed_text, cur, cur_end)`.  The outer
`none` models the `UnboundLocalError` Python raises when `rules` is empty:
the local `matched` is assigned only inside the loop body, so the trailing
`if matched` reads an unbound variable when the loop never runs.  For a
non-empty list the result is `some r` where `r` is the Python return value
(`some replace` for the first rule that fired, `none` for the `None`
sentinel). -/
def processRules (rules : List CondRule) (fixedText : List Char)
    (cur curEnd : Nat) : Option (Option String) :=
  match rules with
  | [] => none
  | r :: rest => some (rulesLoop fixedText cur curEnd (r :: rest) false "")

/-- Rows 1–50 of the `PATTERNS` table of `init_data`, reproduced verbatim from the source. -/
def PATTERNS_1 : List Pattern := [
  ⟨"bhl", "ভ্ল", none⟩,
  ⟨"psh", "পশ", none⟩,
  ⟨"bdh", "ব্ধ", none⟩,
  ⟨"bj", "ব্জ", none⟩,
  ⟨"bd", "ব্দ", none⟩,
  ⟨"bb", "ব্ব", none⟩,
  ⟨"bl", "ব্ল", none⟩,
  ⟨"bh", "ভ", none⟩,
  ⟨"vl", "ভ্ল", none⟩,
  ⟨"b", "ব", none⟩,
  ⟨"v", "ভ", none⟩,
  ⟨"cNG", "চ্ঞ", none⟩,
  ⟨"cch", "চ্ছ", none⟩,
  ⟨"cc", "চ্চ", none⟩,
  ⟨"ch", "ছ", none⟩,
  ⟨"c", "চ", none⟩,
  ⟨"dhn", "ধ্ন", none⟩,
  ⟨"dhm", "ধ্ম", none⟩,
  ⟨"dgh", "দ্ঘ", none⟩,
  ⟨"ddh", "দ্ধ", none⟩,
  ⟨"dbh", "দ্ভ", none⟩,
  ⟨"dv", "দ্ভ", none⟩,
  ⟨"dm", "দ্ম", none⟩,
  ⟨"DD", "ড্ড", none⟩,
  ⟨"Dh", "ঢ", none⟩,
  ⟨"dh", "ধ", none⟩,
  ⟨"dg", "দ্গ", none⟩,
  ⟨"dd", "দ্দ", none⟩,
  ⟨"D", "ড", none⟩,
  ⟨"d", "দ", none⟩,
  ⟨"...", "...", none⟩,
  ⟨".`", ".", none⟩,
  ⟨"..", "।।", none⟩,
  ⟨".", "।", none⟩,
  ⟨"ghn", "ঘ্ন", none⟩,
  ⟨"Ghn", "ঘ্ন", none⟩,
  ⟨"gdh", "গ্ধ", none⟩,
  ⟨"Gdh", "গ্ধ", none⟩,
  ⟨"gN", "গ্ণ", none⟩,
  ⟨"GN", "গ্ণ", none⟩,
  ⟨"gn", "গ্ন", none⟩,
  ⟨"Gn", "গ্ন", none⟩,
  ⟨"gm", "গ্ম", none⟩,
  ⟨"Gm", "গ্ম", none⟩,
  ⟨"gl", "গ্ল", none⟩,
  ⟨"Gl", "গ্ল", none⟩,
  ⟨"gg", "জ্ঞ", none⟩,
  ⟨"GG", "জ্ঞ", none⟩,
  ⟨"Gg", "জ্ঞ", none⟩,
  ⟨"gG", "জ্ঞ", none⟩
]

/-- Rows 51–100 of the `PATTERNS` table of `init_data`, reproduced verbatim from the source. -/
def PATTERNS_2 : List Pattern := [
  ⟨"gh", "ঘ", none⟩,
  ⟨"Gh", "ঘ", none⟩,
  ⟨"g", "গ", none⟩,
  ⟨"G", "গ", none⟩,
  ⟨"hN", "হ্ণ", none⟩,
  ⟨"hn", "হ্ন", none⟩,
  ⟨"hm", "হ্ম", none⟩,
  ⟨"hl", "হ্ল", none⟩,
  ⟨"h", "হ", none⟩,
  ⟨"jjh", "জ্ঝ", none⟩,
  ⟨"jNG", "জ্ঞ", none⟩,
  ⟨"jh", "ঝ", none⟩,
  ⟨"jj", "জ্জ", none⟩,
  ⟨"j", "জ", none⟩,
  ⟨"J", "জ", none⟩,
  ⟨"kkhN", "ক্ষ্ণ", none⟩,
  ⟨"kShN", "ক্ষ্ণ", none⟩,
  ⟨"kkhm", "ক্ষ্ম", none⟩,
  ⟨"kShm", "ক্ষ্ম", none⟩,
  ⟨"kxN", "ক্ষ্ণ", none⟩,
  ⟨"kxm", "ক্ষ্ম", none⟩,
  ⟨"kkh", "ক্ষ", none⟩,
  ⟨"kSh", "ক্ষ", none⟩,
  ⟨"ksh", "কশ", none⟩,
  ⟨"kx", "ক্ষ", none⟩,
  ⟨"kk", "ক্ক", none⟩,
  ⟨"kT", "ক্ট", none⟩,
  ⟨"kt", "ক্ত", none⟩,
  ⟨"kl", "ক্ল", none⟩,
  ⟨"ks", "ক্স", none⟩,
  ⟨"kh", "খ", none⟩,
  ⟨"k", "ক", none⟩,
  ⟨"lbh", "ল্ভ", none⟩,
  ⟨"ldh", "ল্ধ", none⟩,
  ⟨"lkh", "লখ", none⟩,
  ⟨"lgh", "লঘ", none⟩,
  ⟨"lph", "লফ", none⟩,
  ⟨"lk", "ল্ক", none⟩,
  ⟨"lg", "ল্গ", none⟩,
  ⟨"lT", "ল্ট", none⟩,
  ⟨"lD", "ল্ড", none⟩,
  ⟨"lp", "ল্প", none⟩,
  ⟨"lv", "ল্ভ", none⟩,
  ⟨"lm", "ল্ম", none⟩,
  ⟨"ll", "ল্ল", none⟩,
  ⟨"lb", "ল্ব", none⟩,
  ⟨"l", "ল", none⟩,
  ⟨"mth", "ম্থ", none⟩,
  ⟨"mph", "ম্ফ", none⟩,
  ⟨"mbh", "ম্ভ", none⟩
]

/-- Rows 101–150 of the `PATTERNS` table of `init_data`, reproduced verbatim from the source. -/
def PATTERNS_3 : List Pattern := [
  ⟨"mpl", "মপ্ল", none⟩,
  ⟨"mn", "ম্ন", none⟩,
  ⟨"mp", "ম্প", none⟩,
  ⟨"mv", "ম্ভ", none⟩,
  ⟨"mm", "ম্ম", none⟩,
  ⟨"ml", "ম্ল", none⟩,
  ⟨"mb", "ম্ব", none⟩,
  ⟨"mf", "ম্ফ", none⟩,
  ⟨"m", "ম", none⟩,
  ⟨"0", "০", none⟩,
  ⟨"1", "১", none⟩,
  ⟨"2", "২", none⟩,
  ⟨"3", "৩", none⟩,
  ⟨"4", "৪", none⟩,
  ⟨"5", "৫", none⟩,
  ⟨"6", "৬", none⟩,
  ⟨"7", "৭", none⟩,
  ⟨"8", "৮", none⟩,
  ⟨"9", "৯", none⟩,
  ⟨"NgkSh", "ঙ্ক্ষ", none⟩,
  ⟨"Ngkkh", "ঙ্ক্ষ", none⟩,
  ⟨"NGch", "ঞ্ছ", none⟩,
  ⟨"Nggh", "ঙ্ঘ", none⟩,
  ⟨"Ngkh", "ঙ্খ", none⟩,
  ⟨"NGjh", "ঞ্ঝ", none⟩,
  ⟨"ngOU", "ঙ্গৌ", none⟩,
  ⟨"ngOI", "ঙ্গৈ", none⟩,
  ⟨"Ngkx", "ঙ্ক্ষ", none⟩,
  ⟨"NGc", "ঞ্চ", none⟩,
  ⟨"nch", "ঞ্ছ", none⟩,
  ⟨"njh", "ঞ্ঝ", none⟩,
  ⟨"ngh", "ঙ্ঘ", none⟩,
  ⟨"Ngk", "ঙ্ক", none⟩,
  ⟨"Ngx", "ঙ্ষ", none⟩,
  ⟨"Ngg", "ঙ্গ", none⟩,
  ⟨"Ngm", "ঙ্ম", none⟩,
  ⟨"NGj", "ঞ্জ", none⟩,
  ⟨"ndh", "ন্ধ", none⟩,
  ⟨"nTh", "ন্ঠ", none⟩,
  ⟨"NTh", "ণ্ঠ", none⟩,
  ⟨"nth", "ন্থ", none⟩,
  ⟨"nkh", "ঙ্খ", none⟩,
  ⟨"ngo", "ঙ্গ", none⟩,
  ⟨"nga", "ঙ্গা", none⟩,
  ⟨"ngi", "ঙ্গি", none⟩,
  ⟨"ngI", "ঙ্গী", none⟩,
  ⟨"ngu", "ঙ্গু", none⟩,
  ⟨"ngU", "ঙ্গূ", none⟩,
  ⟨"nge", "ঙ্গে", none⟩,
  ⟨"ngO", "ঙ্গো", none⟩
]

/-- Rows 151–200 of the `PATTERNS` table of `init_data`, reproduced verbatim from the source. -/
def PATTERNS_4 : List Pattern := [
  ⟨"NDh", "ণ্ঢ", none⟩,
  ⟨"nsh", "নশ", none⟩,
  ⟨"Ngr", "ঙর", none⟩,
  ⟨"NGr", "ঞর", none⟩,
  ⟨"ngr", "ংর", none⟩,
  ⟨"nj", "ঞ্জ", none⟩,
  ⟨"Ng", "ঙ", none⟩,
  ⟨"NG", "ঞ", none⟩,
  ⟨"nk", "ঙ্ক", none⟩,
  ⟨"ng", "ং", none⟩,
  ⟨"nn", "ন্ন", none⟩,
  ⟨"NN", "ণ্ণ", none⟩,
  ⟨"Nn", "ণ্ন", none⟩,
  ⟨"nm", "ন্ম", none⟩,
  ⟨"Nm", "ণ্ম", none⟩,
  ⟨"nd", "ন্দ", none⟩,
  ⟨"nT", "ন্ট", none⟩,
  ⟨"NT", "ণ্ট", none⟩,
  ⟨"nD", "ন্ড", none⟩,
  ⟨"ND", "ণ্ড", none⟩,
  ⟨"nt", "ন্ত", none⟩,
  ⟨"ns", "ন্স", none⟩,
  ⟨"nc", "ঞ্চ", none⟩,
  ⟨"n", "ন", none⟩,
  ⟨"N", "ণ", none⟩,
  ⟨"OI`", "ৈ", none⟩,
  ⟨"OU`", "ৌ", none⟩,
  ⟨"O`", "ো", none⟩,
  ⟨"OI", "ৈ", some [⟨[⟨"prefix", "!consonant", ""⟩], "ঐ"⟩, ⟨[⟨"prefix", "punctuation", ""⟩], "ঐ"⟩]⟩,
  ⟨"OU", "ৌ", some [⟨[⟨"prefix", "!consonant", ""⟩], "ঔ"⟩, ⟨[⟨"prefix", "punctuation", ""⟩], "ঔ"⟩]⟩,
  ⟨"O", "ো", some [⟨[⟨"prefix", "!consonant", ""⟩], "ও"⟩, ⟨[⟨"prefix", "punctuation", ""⟩], "ও"⟩]⟩,
  ⟨"phl", "ফ্ল", none⟩,
  ⟨"pT", "প্ট", none⟩,
  ⟨"pt", "প্ত", none⟩,
  ⟨"pn", "প্ন", none⟩,
  ⟨"pp", "প্প", none⟩,
  ⟨"pl", "প্ল", none⟩,
  ⟨"ps", "প্স", none⟩,
  ⟨"ph", "ফ", none⟩,
  ⟨"fl", "ফ্ল", none⟩,
  ⟨"f", "ফ", none⟩,
  ⟨"p", "প", none⟩,
  ⟨"rri`", "ৃ", none⟩,
  ⟨"rri", "ৃ", some [⟨[⟨"prefix", "!consonant", ""⟩], "ঋ"⟩, ⟨[⟨"prefix", "punctuation", ""⟩], "ঋ"⟩]⟩,
  ⟨"rrZ", "রর‍্য", none⟩,
  ⟨"rry", "রর‍্য", none⟩,
  ⟨"rZ", "র‍্য", some [⟨[⟨"prefix", "consonant", ""⟩, ⟨"prefix", "!exact", "r"⟩, ⟨"prefix", "!exact", "y"⟩, ⟨"prefix", "!exact", "w"⟩, ⟨"prefix", "!exact", "x"⟩], "্র্য"⟩]⟩,
  ⟨"ry", "র‍্য", some [⟨[⟨"prefix", "consonant", ""⟩, ⟨"prefix", "!exact", "r"⟩, ⟨"prefix", "!exact", "y"⟩, ⟨"prefix", "!exact", "w"⟩, ⟨"prefix", "!exact", "x"⟩], "্র্য"⟩]⟩,
  ⟨"rr", "রর", some [⟨[⟨"prefix", "!consonant", ""⟩, ⟨"suffix", "!vowel", ""⟩, ⟨"suffix", "!exact", "r"⟩, ⟨"suffix", "!punctuation", ""⟩], "র্"⟩, ⟨[⟨"prefix", "consonant", ""⟩, ⟨"prefix", "!exact", "r"⟩], "্রর"⟩]⟩,
  ⟨"Rg", "ড়্গ", none⟩
]

/-- Rows 201–250 of the `PATTERNS` table of `init_data`, reproduced verbatim from the source. -/
def PATTERNS_5 : List Pattern := [
  ⟨"Rh", "ঢ়", none⟩,
  ⟨"R", "ড়", none⟩,
  ⟨"r", "র", some [⟨[⟨"prefix", "consonant", ""⟩, ⟨"prefix", "!exact", "r"⟩, ⟨"prefix", "!exact", "y"⟩, ⟨"prefix", "!exact", "w"⟩, ⟨"prefix", "!exact", "x"⟩, ⟨"prefix", "!exact", "Z"⟩], "্র"⟩]⟩,
  ⟨"shch", "শ্ছ", none⟩,
  ⟨"ShTh", "ষ্ঠ", none⟩,
  ⟨"Shph", "ষ্ফ", none⟩,
  ⟨"Sch", "শ্ছ", none⟩,
  ⟨"skl", "স্ক্ল", none⟩,
  ⟨"skh", "স্খ", none⟩,
  ⟨"sth", "স্থ", none⟩,
  ⟨"sph", "স্ফ", none⟩,
  ⟨"shc", "শ্চ", none⟩,
  ⟨"sht", "শ্ত", none⟩,
  ⟨"shn", "শ্ন", none⟩,
  ⟨"shm", "শ্ম", none⟩,
  ⟨"shl", "শ্ল", none⟩,
  ⟨"Shk", "ষ্ক", none⟩,
  ⟨"ShT", "ষ্ট", none⟩,
  ⟨"ShN", "ষ্ণ", none⟩,
  ⟨"Shp", "ষ্প", none⟩,
  ⟨"Shf", "ষ্ফ", none⟩,
  ⟨"Shm", "ষ্ম", none⟩,
  ⟨"spl", "স্প্ল", none⟩,
  ⟨"sk", "স্ক", none⟩,
  ⟨"Sc", "শ্চ", none⟩,
  ⟨"sT", "স্ট", none⟩,
  ⟨"st", "স্ত", none⟩,
  ⟨"sn", "স্ন", none⟩,
  ⟨"sp", "স্প", none⟩,
  ⟨"sf", "স্ফ", none⟩,
  ⟨"sm", "স্ম", none⟩,
  ⟨"sl", "স্ল", none⟩,
  ⟨"sh", "শ", none⟩,
  ⟨"Sc", "শ্চ", none⟩,
  ⟨"St", "শ্ত", none⟩,
  ⟨"Sn", "শ্ন", none⟩,
  ⟨"Sm", "শ্ম", none⟩,
  ⟨"Sl", "শ্ল", none⟩,
  ⟨"Sh", "ষ", none⟩,
  ⟨"s", "স", none⟩,
  ⟨"S", "শ", none⟩,
  ⟨"oo`", "ু", none⟩,
  ⟨"oo", "ু", some [⟨[⟨"prefix", "!consonant", ""⟩, ⟨"suffix", "!exact", "`"⟩], "উ"⟩, ⟨[⟨"prefix", "punctuation", ""⟩, ⟨"suffix", "!exact", "`"⟩], "উ"⟩]⟩,
  ⟨"o`", "", none⟩,
  ⟨"oZ", "অ্য", none⟩,
  ⟨"o", "", some [⟨[⟨"prefix", "vowel", ""⟩, ⟨"prefix", "!exact", "o"⟩], "ও"⟩, ⟨[⟨"prefix", "vowel", ""⟩, ⟨"prefix", "exact", "o"⟩], "অ"⟩, ⟨[⟨"prefix", "punctuation", ""⟩], "অ"⟩]⟩,
  ⟨"tth", "ত্থ", none⟩,
  ⟨"t``", "ৎ", none⟩,
  ⟨"TT", "ট্ট", none⟩,
  ⟨"Tm", "ট্ম", none⟩
]

/-- Rows 251–289 of the `PATTERNS` table of `init_data`, reproduced verbatim from the source. -/
def PATTERNS_6 : List Pattern := [
  ⟨"Th", "ঠ", none⟩,
  ⟨"tn", "ত্ন", none⟩,
  ⟨"tm", "ত্ম", none⟩,
  ⟨"th", "থ", none⟩,
  ⟨"tt", "ত্ত", none⟩,
  ⟨"T", "ট", none⟩,
  ⟨"t", "ত", none⟩,
  ⟨"aZ", "অ্যা", none⟩,
  ⟨"AZ", "অ্যা", none⟩,
  ⟨"a`", "া", none⟩,
  ⟨"A`", "া", none⟩,
  ⟨"a", "া", some [⟨[⟨"prefix", "punctuation", ""⟩, ⟨"suffix", "!exact", "`"⟩], "আ"⟩, ⟨[⟨"prefix", "!consonant", ""⟩, ⟨"prefix", "!exact", "a"⟩, ⟨"suffix", "!exact", "`"⟩], "য়া"⟩, ⟨[⟨"prefix", "exact", "a"⟩, ⟨"suffix", "!exact", "`"⟩], "আ"⟩]⟩,
  ⟨"i`", "ি", none⟩,
  ⟨"i", "ি", some [⟨[⟨"prefix", "!consonant", ""⟩, ⟨"suffix", "!exact", "`"⟩], "ই"⟩, ⟨[⟨"prefix", "punctuation", ""⟩, ⟨"suffix", "!exact", "`"⟩], "ই"⟩]⟩,
  ⟨"I`", "ী", none⟩,
  ⟨"I", "ী", some [⟨[⟨"prefix", "!consonant", ""⟩, ⟨"suffix", "!exact", "`"⟩], "ঈ"⟩, ⟨[⟨"prefix", "punctuation", ""⟩, ⟨"suffix", "!exact", "`"⟩], "ঈ"⟩]⟩,
  ⟨"u`", "ু", none⟩,
  ⟨"u", "ু", some [⟨[⟨"prefix", "!consonant", ""⟩, ⟨"suffix", "!exact", "`"⟩], "উ"⟩, ⟨[⟨"prefix", "punctuation", ""⟩, ⟨"suffix", "!exact", "`"⟩], "উ"⟩]⟩,
  ⟨"U`", "ূ", none⟩,
  ⟨"U", "ূ", some [⟨[⟨"prefix", "!consonant", ""⟩, ⟨"suffix", "!exact", "`"⟩], "ঊ"⟩, ⟨[⟨"prefix", "punctuation", ""⟩, ⟨"suffix", "!exact", "`"⟩], "ঊ"⟩]⟩,
  ⟨"ee`", "ী", none⟩,
  ⟨"ee", "ী", some [⟨[⟨"prefix", "!consonant", ""⟩, ⟨"suffix", "!exact", "`"⟩], "ঈ"⟩, ⟨[⟨"prefix", "punctuation", ""⟩, ⟨"suffix", "!exact", "`"⟩], "ঈ"⟩]⟩,
  ⟨"e`", "ে", none⟩,
  ⟨"e", "ে", some [⟨[⟨"prefix", "!consonant", ""⟩, ⟨"suffix", "!exact", "`"⟩], "এ"⟩, ⟨[⟨"prefix", "punctuation", ""⟩, ⟨"suffix", "!exact", "`"⟩], "এ"⟩]⟩,
  ⟨"z", "য", none⟩,
  ⟨"Z", "্য", none⟩,
  ⟨"y", "্য", some [⟨[⟨"prefix", "!consonant", ""⟩, ⟨"prefix", "!punctuation", ""⟩], "য়"⟩, ⟨[⟨"prefix", "punctuation", ""⟩], "ইয়"⟩]⟩,
  ⟨"Y", "য়", none⟩,
  ⟨"q", "ক", none⟩,
  ⟨"w", "ও", some [⟨[⟨"prefix", "punctuation", ""⟩, ⟨"suffix", "vowel", ""⟩], "ওয়"⟩, ⟨[⟨"prefix", "consonant", ""⟩], "্ব"⟩]⟩,
  ⟨"x", "ক্স", some [⟨[⟨"prefix", "punctuation", ""⟩], "এক্স"⟩]⟩,
  ⟨":`", ":", none⟩,
  ⟨":", "ঃ", none⟩,
  ⟨"^`", "^", none⟩,
  ⟨"^", "ঁ", none⟩,
  ⟨",,", "্‌", none⟩,
  ⟨",", ",", none⟩,
  ⟨"$", "৳", none⟩,
  ⟨"`", "", none⟩
]

/-- Table `PATTERNS` of `init_data`: the 289 rows above, in source order. -/
def PATTERNS : List Pattern :=
  PATTERNS_1 ++ PATTERNS_2 ++ PATTERNS_3 ++ PATTERNS_4 ++ PATTERNS_5 ++ PATTERNS_6

/-- Sub-table `NON_RULE_PATTERNS` of `__init__`: the patterns without a
`rules` key, in original order. -/
def NON_RULE_PATTERNS : List Pattern := PATTERNS.filter (fun p => p.rules.isNone)

/-- Sub-table `RULE_PATTERNS` of `__init__`: the patterns with a `rules`
key, in original order. -/
def RULE_PATTERNS : List Pattern := PATTERNS.filter (fun p => p.rules.isSome)

/-- Source `_exact_find_in_pattern(fixed_text, cur, PATTERNS)`: the sublist
of patterns whose `find` fits inside the text at `cur` and equals the slice
of the text there. -/
def exactFindInPattern (fixedText : List Char) (cur : Nat)
    (pats : List Pattern) : List Pattern :=
  pats.filter (fun x =>
    decide (cur + x.find.length ≤ fixedText.length) &&
    (x.find.data == pySlice fixedText (cur : Int) ((cur : Int) + x.find.length)))

/-- Return value of the two matchers: the `matched`/`found`/`replaced`
(/`rules`) dictionary of the source. -/
structure MatchResult where
  matched : Bool
  found : Option String
  replaced : List Char
  rules : Option (List CondRule)
deriving DecidableEq, Repr

/-- Source `_match_non_rule_patterns(fixed_text, cur)`: head of the
filtered non-rule sub-table, or a miss record carrying `fixed_text[cur]`. -/
def matchNonRulePatterns (fixedText : List Char) (cur : Nat) : MatchResult :=
  match exactFindInPattern fixedText cur NON_RULE_PATTERNS with
  | p :: _ => ⟨true, some p.find, p.replace.data, none⟩
  | [] => ⟨false, none, [pyGet fixedText (cur : Int)], none⟩

/-- Source `_match_rule_patterns(fixed_text, cur)`: head of the filtered
rule sub-table, or a miss record. -/
def matchRulePatterns (fixedText : List Char) (cur : Nat) : MatchResult :=
  match exactFindInPattern fixedText cur RULE_PATTERNS with
  | p :: _ => ⟨true, some p.find, p.replace.data, p.rules⟩
  | [] => ⟨false, none, [pyGet fixedText (cur : Int)], none⟩

/-- Body of one iteration of the `parse` loop, acting on the state
`(cur_end, output)`.  Faithful to the source: the `uni_pass` guard comes
first (an unencodable unit passes through and bumps `cur_end` even inside a
consumed span); the `elif` requires `cur >= cur_end and uni_pass`; the
trailing `if not match["matched"]` of the source collapses into the
innermost `else` here because both match branches leave `matched` true.  On
a hit, `found` is always `some`, so `.getD ""` only renames the value
(Python would raise on `len(None)`).  The `none` result of `processRules`
(Python: Python raises `UnboundLocalError` on an empty rules list) is unreachable from
`parse` because every rules list in `RULE_PATTERNS` is non-empty
(`rule_patterns_rules_nonempty` below); it is mapped to the default
replacement to keep the function total. -/
def parseStep (uniPass : Char → Bool) (fixedText : List Char) (cur : Nat)
    (i : Char) (st : Nat × List Char) : Nat × List Char :=
  let curEnd := st.1
  let output := st.2
  if !(uniPass i) then
    (cur + 1, output ++ [i])
  else if decide (curEnd ≤ cur) && uniPass i then
    let m := matchNonRulePatterns fixedText cur
    if m.matched then
      (cur + (m.found.getD "").length, output ++ m.replaced)
    else
      let m2 := matchRulePatterns fixedText cur
      if m2.matched then
        let curEnd2 := cur + (m2.found.getD "").length
        match processRules (m2.rules.getD []) fixedText cur curEnd2 with
        | some (some replaced) => (curEnd2, output ++ replaced.data)
        | some none => (curEnd2, output ++ m2.replaced)
        | none => (curEnd2, output ++ m2.replaced)
      else
        (cur + 1, output ++ [i])
  else
    st

/-- The `for cur, i in enumerate(fixed_text)` loop of `parse`, with the
still-unvisited characters as the first list argument and `cur` the index of
its head in `fixedText`. -/
def runLoop (uniPass : Char → Bool) (fixedText : List Char) :
    List Char → Nat → Nat × List Char → Nat × List Char
  | [], _, st => st
  | i :: rest, cur, st =>
    runLoop uniPass fixedText rest (cur + 1) (parseStep uniPass fixedText cur i st)

/-- Source `parse(text)` parametrised by the `uni_pass` test (in the source,
`uni_pass` is false exactly when `i.encode('utf-8')` raises the caught
exception).  `_utf` is the identity. -/
def parseWith (uniPass : Char → Bool) (text : List Char) : List Char :=
  let fixedText := fixStringCase (text)
  (runLoop uniPass fixedText fixedText 0 (0, [])).2

/-- Source `parse(text)`.  A Lean `Char` is always a valid Unicode scalar
value, so the `i.encode('utf-8')` probe never fails and `uni_pass` is
constantly true. -/
def parse (text : List Char) : List Char := parseWith (fun _ => true) text


/-! ### Helper lemmas -/

/-- Head of a filtered list is the first element satisfying the predicate. -/
theorem filter_head?_eq_find? (p : α → Bool) (l : List α) :
    (l.filter p).head? = l.find? p := by
  induction l with
  | nil => rfl
  | cons a l ih =>
    by_cases h : p a <;> simp [List.filter_cons, List.find?_cons, h, ih]

/-- Spec-side reading of the matcher predicate: pattern `x` matches the
normalized text at `cur` when its `find` fits inside the text and equals the
slice of the text there. -/
def matchesAt (fixedText : List Char) (cur : Nat) (x : Pattern) : Bool :=
  decide (cur + x.find.length ≤ fixedText.length) &&
    (x.find.data == pySlice fixedText (cur : Int) ((cur : Int) + x.find.length))

/-- The source filter is exactly a filter by `matchesAt`. -/
theorem exactFindInPattern_eq_filter (fixedText : List Char) (cur : Nat)
    (pats : List Pattern) :
    exactFindInPattern fixedText cur pats = pats.filter (matchesAt fixedText cur) :=
  rfl

/-- Every rules list in the rule sub-table is non-empty, so the
`UnboundLocalError` branch of `processRules` is unreachable from `parse`. -/
theorem rule_patterns_rules_nonempty :
    ∀ p ∈ RULE_PATTERNS, p.rules.getD [] ≠ [] := by
  decide


/-! ### Claim theorems -/

/-- C5: for every input string, the case normalizer returns a string of
equal character count in which each character `c` is kept unchanged if
`lowercase(c)` is in `CASESENSITIVES` and is replaced by `lowercase(c)`
otherwise. -/
theorem C5_fixStringCase_pointwise (t : List Char) :
    (fixStringCase t).length = t.length ∧
    ∀ i, i < t.length →
      (fixStringCase t).getD i '\u0000' =
        (if lowerChar (t.getD i '\u0000') ∈ CASESENSITIVES then t.getD i '\u0000'
         else lowerChar (t.getD i '\u0000')) := by
  constructor
  · simp [fixStringCase]
  · intro i hi
    simp only [fixStringCase, List.getD_eq_getElem?_getD, List.getElem?_map]
    rcases h : t[i]? with _ | c
    · simp at h; omega
    · simp [isCaseSensitive, List.elem_iff, h]

/-- C5 witness at a concrete input: `"Ok"` keeps its case-sensitive `'O'`. -/
theorem C5_fixStringCase_pointwise_witness :
    (fixStringCase "Ok".data).length = ("Ok".data).length ∧
    (fixStringCase "Ok".data).getD 0 '\u0000' =
      (if lowerChar (("Ok".data).getD 0 '\u0000') ∈ CASESENSITIVES
       then ("Ok".data).getD 0 '\u0000'
       else lowerChar (("Ok".data).getD 0 '\u0000')) :=
  ⟨(C5_fixStringCase_pointwise "Ok".data).1,
   (C5_fixStringCase_pointwise "Ok".data).2 0 (by decide)⟩

/-- C6: a cursor position strictly inside a previously consumed span
(`cur < cur_end`) is skipped by the transducer loop: the state — and in
particular the output — is returned unchanged, and no matcher is consulted. -/
theorem C6_consumed_positions_skipped (t : List Char) (cur : Nat) (i : Char)
    (curEnd : Nat) (out : List Char) (h : cur < curEnd) :
    parseStep (fun _ => true) t cur i (curEnd, out) = (curEnd, out) := by
  have hle : (decide (curEnd ≤ cur)) = false := by simp; omega
  simp [parseStep, hle]

/-- C6 witness: position 0 inside a span consumed up to 5 is skipped. -/
theorem C6_consumed_positions_skipped_witness :
    parseStep (fun _ => true) "ab".data 0 'a' (5, ['x']) = (5, ['x']) :=
  C6_consumed_positions_skipped "ab".data 0 'a' 5 ['x'] (by decide)

/-- C8: a unit that fails the per-character encodability probe is passed
through to the output unmodified and the cursor advances by one; the loop
body is a total function, so the transduction is never aborted. -/
theorem C8_unencodable_passthrough (uniPass : Char → Bool) (t : List Char)
    (cur : Nat) (i : Char) (curEnd : Nat) (out : List Char)
    (h : uniPass i = false) :
    parseStep uniPass t cur i (curEnd, out) = (cur + 1, out ++ [i]) := by
  simp [parseStep, h]

/-- C8 witness: with a constantly-false probe the unit `'a'` passes through. -/
theorem C8_unencodable_passthrough_witness :
    parseStep (fun _ => false) "ab".data 0 'a' (0, []) = (0 + 1, [] ++ ['a']) :=
  C8_unencodable_passthrough (fun _ => false) "ab".data 0 'a' 0 [] rfl

/-- C9: `parse "OI"` yields `"ঐ"` (the `OI` rule fires at the start of the
string) and `parse "kOI"` yields `"কৈ"` (after the consonant `'k'` no rule
fires and the default replacement is used). -/
theorem C9_OI_scenarios :
    parse "OI".data = "ঐ".data ∧ parse "kOI".data = "কৈ".data :=
  ⟨rfl, rfl⟩

/-- C10: a match predicate whose scope, after stripping a leading `'!'`, is
none of `punctuation`, `vowel`, `consonant`, `exact` is vacuously satisfied:
the evaluator returns `true` for every text, cursor interval and negation
flag (and, being total, never raises). -/
theorem C10_unknown_scope_satisfied (m : MatchPred) (t : List Char)
    (cur curEnd : Nat)
    (hp : (if m.scope.data.head? == some '!' then m.scope.drop 1 else m.scope) ≠ "punctuation")
    (hv : (if m.scope.data.head? == some '!' then m.scope.drop 1 else m.scope) ≠ "vowel")
    (hc : (if m.scope.data.head? == some '!' then m.scope.drop 1 else m.scope) ≠ "consonant")
    (he : (if m.scope.data.head? == some '!' then m.scope.drop 1 else m.scope) ≠ "exact") :
    processMatch m t cur curEnd = true := by
  have hp' : ¬(if m.scope.data.head? = some '!' then m.scope.drop 1 else m.scope) = "punctuation" := by
    simpa using hp
  have hv' : ¬(if m.scope.data.head? = some '!' then m.scope.drop 1 else m.scope) = "vowel" := by
    simpa using hv
  have hc' : ¬(if m.scope.data.head? = some '!' then m.scope.drop 1 else m.scope) = "consonant" := by
    simpa using hc
  have he' : ¬(if m.scope.data.head? = some '!' then m.scope.drop 1 else m.scope) = "exact" := by
    simpa using he
  simp [processMatch, hp', hv', hc', he']

/-- C10 witness: the (hypothetical) scope `digit` is accepted and satisfied. -/
theorem C10_unknown_scope_satisfied_witness :
    processMatch ⟨"prefix", "digit", ""⟩ ['a'] 1 2 = true :=
  C10_unknown_scope_satisfied ⟨"prefix", "digit", ""⟩ ['a'] 1 2
    (by decide) (by decide) (by decide) (by decide)


/-- C3: boundary semantics of the context predicates.  At the start of the
text (`cur = 0`) a `prefix` predicate with scope `punctuation` holds while
scopes `vowel` and `consonant` do not; at the end of the text
(`cur_end = N`) a `suffix` predicate with scope `punctuation` holds while
`vowel` and `consonant` do not; negation flips each outcome. -/
theorem C3_boundary_semantics (t : List Char) (v : String) (cur curEnd : Nat) :
    processMatch ⟨"prefix", "punctuation", v⟩ t 0 curEnd = true ∧
    processMatch ⟨"suffix", "punctuation", v⟩ t cur t.length = true ∧
    processMatch ⟨"prefix", "vowel", v⟩ t 0 curEnd = false ∧
    processMatch ⟨"prefix", "consonant", v⟩ t 0 curEnd = false ∧
    processMatch ⟨"suffix", "vowel", v⟩ t cur t.length = false ∧
    processMatch ⟨"suffix", "consonant", v⟩ t cur t.length = false ∧
    processMatch ⟨"prefix", "!punctuation", v⟩ t 0 curEnd = false ∧
    processMatch ⟨"suffix", "!punctuation", v⟩ t cur t.length = false ∧
    processMatch ⟨"prefix", "!vowel", v⟩ t 0 curEnd = true ∧
    processMatch ⟨"prefix", "!consonant", v⟩ t 0 curEnd = true ∧
    processMatch ⟨"suffix", "!vowel", v⟩ t cur t.length = true ∧
    processMatch ⟨"suffix", "!consonant", v⟩ t cur t.length = true := by
  have h1 : ("!punctuation".drop 1) = "punctuation" := rfl
  have h2 : ("!vowel".drop 1) = "vowel" := rfl
  have h3 : ("!consonant".drop 1) = "consonant" := rfl
  refine ⟨?_, ?_, ?_, ?_, ?_, ?_, ?_, ?_, ?_, ?_, ?_, ?_⟩ <;>
    simp [processMatch, h1, h2, h3]


/-- C4: an `exact` predicate's raw condition holds iff the comparison window
lies strictly inside the text (`start ≥ 0`, `end < len`, window equal to the
value); in particular a non-negated `exact` suffix whose window ends exactly
at the string boundary fails, whatever the characters there are. -/
theorem C4_exact_window (v : String) (t : List Char) (cur curEnd : Nat) :
    (processMatch ⟨"prefix", "exact", v⟩ t cur curEnd = true ↔
      (v.length ≤ cur ∧ cur < t.length ∧
        pySlice t ((cur : Int) - v.length) (cur : Int) = v.data)) ∧
    (processMatch ⟨"suffix", "exact", v⟩ t cur curEnd = true ↔
      (curEnd + v.length < t.length ∧
        pySlice t (curEnd : Int) ((curEnd : Int) + v.length) = v.data)) ∧
    (curEnd + v.length = t.length →
      processMatch ⟨"suffix", "exact", v⟩ t cur curEnd = false) := by
  refine ⟨?_, ?_, ?_⟩ <;> simp [processMatch, isExact, Int.sub_nonneg]
  · rw [and_assoc]
  · intro _
    omega
  · intro h h2 _
    omega


/-- C4 witness: in `"ba"` the suffix window `[1,2)` for value `"a"` ends
exactly at the string boundary and the predicate fails although the
characters of the window equal the value. -/
theorem C4_exact_window_witness :
    pySlice "ba".data (1 : Int) (2 : Int) = "a".data ∧
    processMatch ⟨"suffix", "exact", "a"⟩ "ba".data 0 1 = false :=
  ⟨by decide, (C4_exact_window "a" "ba".data 0 1).2.2 (by decide)⟩

/-- Inner loop result: on a non-empty predicate list the loop computes the
conjunction of the predicates, whatever value `matched` had on entry. -/
theorem matchesLoop_eq_all (t : List Char) (cur curEnd : Nat) :
    ∀ (ms : List MatchPred) (b : Bool), ms ≠ [] →
      matchesLoop t cur curEnd ms b =
        ms.all (fun m => processMatch m t cur curEnd) := by
  intro ms
  induction ms with
  | nil => intro b h; exact absurd rfl h
  | cons m rest ih =>
    intro b _
    rcases hr : rest with _ | ⟨m2, rest2⟩
    · simp only [matchesLoop, List.all_cons, List.all_nil]
      rcases processMatch m t cur curEnd <;> simp [matchesLoop]
    · rw [← hr]
      have hrne : rest ≠ [] := by simp [hr]
      simp only [matchesLoop]
      rcases hm : processMatch m t cur curEnd <;>
        simp [hm, ih _ hrne]

/-- Outer loop result: starting from `matched = false`, the loop returns the
`replace` of the first rule whose (non-empty) predicate list all holds, and
`none` when no rule fires. -/
theorem rulesLoop_eq_find? (t : List Char) (cur curEnd : Nat) :
    ∀ (rs : List CondRule) (s : String),
      (∀ r ∈ rs, r.«matches» ≠ []) →
      rulesLoop t cur curEnd rs false s =
        (rs.find? (fun r => r.«matches».all
            (fun m => processMatch m t cur curEnd))).map (fun r => r.replace) := by
  intro rs
  induction rs with
  | nil => intro s _; rfl
  | cons r rest ih =>
    intro s hm
    have hr : r.«matches» ≠ [] := hm r (by simp)
    have hrest : ∀ r' ∈ rest, r'.«matches» ≠ [] := fun r' h' => hm r' (by simp [h'])
    simp only [rulesLoop, matchesLoop_eq_all t cur curEnd _ false hr, List.find?_cons]
    rcases ha : r.«matches».all (fun m => processMatch m t cur curEnd) <;>
      simp [ih s hrest]

/-- C2 counterexample: on the empty rules list the evaluator does not return
the no-rule-fired sentinel (`some none`); the loop never assigns `matched`,
so the trailing `if matched` of the source raises `UnboundLocalError`,
modelled by the outer `none`. -/
theorem C2_empty_rules_counterexample :
    processRules [] ['a'] 0 1 = none ∧ (none : Option (Option String)) ≠ some none :=
  ⟨rfl, by decide⟩

/-- C2 (amended with a non-empty rules list): for every non-empty rules list
whose rules each carry a non-empty predicate list, the evaluator returns the
`replace` of the first rule (in list order) all of whose predicates hold,
and the `None` sentinel when no rule's conjunction is satisfied. -/
theorem C2_first_satisfied_rule (rules : List CondRule) (t : List Char)
    (cur curEnd : Nat) (hne : rules ≠ [])
    (hm : ∀ r ∈ rules, r.«matches» ≠ []) :
    processRules rules t cur curEnd =
      some ((rules.find? (fun r => r.«matches».all
          (fun m => processMatch m t cur curEnd))).map (fun r => r.replace)) := by
  rcases rules with _ | ⟨r, rest⟩
  · exact absurd rfl hne
  · simp only [processRules]
    rw [rulesLoop_eq_find? t cur curEnd _ "" hm]

/-- C2 witness: inside `"kOI"`, with the `OI` pattern matched on `[1,3)`,
neither rule of the pattern is satisfied (the character before the match is
the consonant `k`), so the evaluator returns the `None` sentinel. -/
theorem C2_first_satisfied_rule_witness :
    processRules
        [⟨[⟨"prefix", "!consonant", ""⟩], "ঐ"⟩,
         ⟨[⟨"prefix", "punctuation", ""⟩], "ঐ"⟩] "kOI".data 1 3 =
      some none :=
  Trans.trans
    (C2_first_satisfied_rule
      [⟨[⟨"prefix", "!consonant", ""⟩], "ঐ"⟩,
       ⟨[⟨"prefix", "punctuation", ""⟩], "ঐ"⟩] "kOI".data 1 3
      (by decide) (by decide))
    (by decide)


/-- Matcher characterisation: `_match_non_rule_patterns` returns the hit
record of the first non-rule pattern matching at the cursor, in original
table order, and a miss record when none matches. -/
theorem matchNonRulePatterns_spec (t : List Char) (cur : Nat) :
    matchNonRulePatterns t cur =
      (match NON_RULE_PATTERNS.find? (matchesAt t cur) with
       | some p => ⟨true, some p.find, p.replace.data, none⟩
       | none => ⟨false, none, [pyGet t (cur : Int)], none⟩) := by
  unfold matchNonRulePatterns
  rw [exactFindInPattern_eq_filter]
  rcases h : NON_RULE_PATTERNS.filter (matchesAt t cur) with _ | ⟨p, rest⟩
  · have hf : NON_RULE_PATTERNS.find? (matchesAt t cur) = none := by
      rw [← filter_head?_eq_find?, h]; rfl
    rw [hf]
  · have hf : NON_RULE_PATTERNS.find? (matchesAt t cur) = some p := by
      rw [← filter_head?_eq_find?, h]; rfl
    rw [hf]

/-- Matcher characterisation: `_match_rule_patterns` returns the hit record
of the first rule pattern matching at the cursor, in original table order,
and a miss record when none matches. -/
theorem matchRulePatterns_spec (t : List Char) (cur : Nat) :
    matchRulePatterns t cur =
      (match RULE_PATTERNS.find? (matchesAt t cur) with
       | some p => ⟨true, some p.find, p.replace.data, p.rules⟩
       | none => ⟨false, none, [pyGet t (cur : Int)], none⟩) := by
  unfold matchRulePatterns
  rw [exactFindInPattern_eq_filter]
  rcases h : RULE_PATTERNS.filter (matchesAt t cur) with _ | ⟨p, rest⟩
  · have hf : RULE_PATTERNS.find? (matchesAt t cur) = none := by
      rw [← filter_head?_eq_find?, h]; rfl
    rw [hf]
  · have hf : RULE_PATTERNS.find? (matchesAt t cur) = some p := by
      rw [← filter_head?_eq_find?, h]; rfl
    rw [hf]

/-- C1: at every cursor position the transducer processes (`cur_end ≤ cur`),
the chosen match is the first pattern of the non-rule sub-table, in original
table order, whose `find` equals the slice of the normalized text at the
cursor; only when no non-rule pattern matches is the rule sub-table
consulted, again yielding its first matching entry — so a non-rule pattern
beats any rule pattern matching at the same cursor, whatever the lengths of
their `find` strings. -/
theorem C1_first_match_and_non_rule_precedence (t : List Char) (cur : Nat)
    (i : Char) (curEnd : Nat) (out : List Char) (hce : curEnd ≤ cur) :
    (∀ p, NON_RULE_PATTERNS.find? (matchesAt t cur) = some p →
       parseStep (fun _ => true) t cur i (curEnd, out) =
         (cur + p.find.length, out ++ p.replace.data)) ∧
    (NON_RULE_PATTERNS.find? (matchesAt t cur) = none →
       ∀ p, RULE_PATTERNS.find? (matchesAt t cur) = some p →
         parseStep (fun _ => true) t cur i (curEnd, out) =
           (cur + p.find.length,
            out ++ (match processRules (p.rules.getD []) t cur (cur + p.find.length) with
                    | some (some r) => r.data
                    | _ => p.replace.data))) := by
  constructor
  · intro p hp
    simp [parseStep, matchNonRulePatterns_spec, hp, hce]
  · intro hnone p hp
    simp only [parseStep, matchNonRulePatterns_spec, matchRulePatterns_spec, hnone, hp]
    rcases hr : processRules (p.rules.getD []) t cur (cur + p.find.length) with _ | ⟨_ | r⟩ <;>
      simp [hce, hr]

/-- C1 witness: at cursor 0 of `"bhl"` the non-rule pattern `bhl` (first in
its sub-table) is chosen, and at cursor 0 of `"OI"` no non-rule pattern
matches and the first matching rule pattern `OI` is chosen. -/
theorem C1_first_match_and_non_rule_precedence_witness :
    parseStep (fun _ => true) "bhl".data 0 'b' (0, []) =
      (0 + ("bhl" : String).length, [] ++ ("ভ্ল" : String).data) ∧
    parseStep (fun _ => true) "OI".data 0 'O' (0, []) =
      (0 + ("OI" : String).length,
       [] ++ (match processRules ((some [⟨[⟨"prefix", "!consonant", ""⟩], "ঐ"⟩,
                   ⟨[⟨"prefix", "punctuation", ""⟩], "ঐ"⟩] : Option (List CondRule)).getD [])
                   "OI".data 0 (0 + ("OI" : String).length) with
               | some (some r) => r.data
               | _ => ("ৈ" : String).data)) :=
  ⟨(C1_first_match_and_non_rule_precedence "bhl".data 0 'b' 0 [] (Nat.le_refl 0)).1
     ⟨"bhl", "ভ্ল", none⟩ (by decide),
   (C1_first_match_and_non_rule_precedence "OI".data 0 'O' 0 [] (Nat.le_refl 0)).2
     (by decide)
     ⟨"OI", "ৈ", some [⟨[⟨"prefix", "!consonant", ""⟩], "ঐ"⟩,
       ⟨[⟨"prefix", "punctuation", ""⟩], "ঐ"⟩]⟩ (by decide)⟩


set_option maxRecDepth 40000 in
/-- Every `find` string of the table is non-empty. -/
theorem patterns_find_nonempty : ∀ p ∈ PATTERNS, p.find.data ≠ [] := by
  decide

/-- A text none of whose characters occurs in any `find` is missed by every
pattern of a sub-list of the table, at every cursor. -/
theorem filter_matchesAt_eq_nil (t : List Char) (cur : Nat)
    (pats : List Pattern) (hsub : ∀ p ∈ pats, p ∈ PATTERNS)
    (h : ∀ c ∈ t, ∀ p ∈ PATTERNS, c ∉ p.find.data) :
    pats.filter (matchesAt t cur) = [] := by
  rw [List.filter_eq_nil_iff]
  intro p hp hmat
  simp only [matchesAt, Bool.and_eq_true, decide_eq_true_eq, beq_iff_eq] at hmat
  obtain ⟨hlen, hslice⟩ := hmat
  have hP : p ∈ PATTERNS := hsub p hp
  rcases hc : p.find.data with _ | ⟨c, cs⟩
  · exact patterns_find_nonempty p hP hc
  · have hmem : c ∈ pySlice t (cur : Int) ((cur : Int) + p.find.length) := by
      rw [← hslice, hc]; exact List.mem_cons_self c cs
    have hct : c ∈ t :=
      List.drop_subset _ t (List.take_subset _ _ hmem)
    exact h c hct p hP (hc ▸ List.mem_cons_self c cs)

/-- On such a text the loop copies every remaining character through
unchanged. -/
theorem runLoop_identity (t : List Char)
    (h : ∀ c ∈ t, ∀ p ∈ PATTERNS, c ∉ p.find.data) :
    ∀ (rest : List Char) (cur curEnd : Nat) (out : List Char), curEnd ≤ cur →
      (runLoop (fun _ => true) t rest cur (curEnd, out)).2 = out ++ rest := by
  intro rest
  induction rest with
  | nil => intro cur curEnd out _; simp [runLoop]
  | cons i rest ih =>
    intro cur curEnd out hce
    have hnr : NON_RULE_PATTERNS.find? (matchesAt t cur) = none := by
      rw [← filter_head?_eq_find?,
        filter_matchesAt_eq_nil t cur NON_RULE_PATTERNS
          (fun p hp => (List.mem_filter.mp hp).1) h]
      rfl
    have hr : RULE_PATTERNS.find? (matchesAt t cur) = none := by
      rw [← filter_head?_eq_find?,
        filter_matchesAt_eq_nil t cur RULE_PATTERNS
          (fun p hp => (List.mem_filter.mp hp).1) h]
      rfl
    have hstep : parseStep (fun _ => true) t cur i (curEnd, out) =
        (cur + 1, out ++ [i]) := by
      simp [parseStep, matchNonRulePatterns_spec, matchRulePatterns_spec,
        hnr, hr, hce]
    rw [runLoop, hstep, ih (cur + 1) (cur + 1) (out ++ [i]) (Nat.le_refl _)]
    simp

set_option maxRecDepth 40000 in
/-- C7 counterexample: the claim quantifies over raw input characters, but
matching happens on the case-normalized text.  No `find` of the table
contains the character `'B'`, yet `parse "B"` is `"ব"`, not the
case-normalized `"b"`: normalization first folds `'B'` to `'b'`, which the
pattern `b` then matches. -/
theorem C7_raw_character_counterexample :
    ("B".data.all (fun c => PATTERNS.all (fun p => !p.find.data.contains c))) = true ∧
    parse "B".data ≠ fixStringCase "B".data := by
  constructor
  · decide
  · decide

/-- C7 (amended to the case-normalized text): if no character of the
case-normalized input occurs in any pattern's `find`, `parse` returns the
case-normalized input — every character passes through via the identity
fallback. -/
theorem C7_identity_on_fresh_input (x : List Char)
    (h : ∀ c ∈ fixStringCase x, ∀ p ∈ PATTERNS, c ∉ p.find.data) :
    parse x = fixStringCase x := by
  unfold parse parseWith
  have hrun := runLoop_identity (fixStringCase x) h (fixStringCase x) 0 0 []
    (Nat.le_refl 0)
  simpa using hrun

set_option maxRecDepth 40000 in
/-- C7 witness: `'+'` occurs in no `find`, and `parse "+"` is `"+"`. -/
theorem C7_identity_on_fresh_input_witness :
    parse "+".data = fixStringCase "+".data :=
  C7_identity_on_fresh_input "+".data (by decide)

end Avro
